import Mathlib

/-!
# Verification of the stolos scheduler core

Shallow embedding of the two source files of this repository:

* `scheduler/plugins/bash_plugin.py` — the execution watchdog (`run`,
  `get_process_children`, the outcome classification in `main`, and the
  command-assembly / configuration-error logic of `main`);
* `stolos/testing_tools.py` — the monitoring status view (`get_zk_status`)
  and the validators built on it (`validate_one_failed_task`, ...).

Operations of the coordination layer whose implementation is not in the
sources (`maybe_add_subtask`, `mark_failed` of the job state store) are
modelled from the specification and marked as such in their doc comments.
-/

namespace BashPlugin

/-- A snapshot of the OS process table: list of `(pid, ppid)` pairs. -/
abbrev ProcTree := List (Nat × Nat)

/-- `c` is a direct child of `p` in the process-table snapshot. -/
def childOf (tree : ProcTree) (c p : Nat) : Prop := (c, p) ∈ tree

instance (tree : ProcTree) (c p : Nat) : Decidable (childOf tree c p) :=
  inferInstanceAs (Decidable ((c, p) ∈ tree))

/-- `q` is a proper descendant of `r`: reachable through one or more
parent links in the snapshot. -/
def descendantOf (tree : ProcTree) (q r : Nat) : Prop :=
  Relation.TransGen (childOf tree) q r

/-- Embeds `get_process_children(pid)`: the Python function shells out to
`ps --no-headers -o pid --ppid <pid>`, which lists exactly the processes
whose parent pid equals `pid`, and parses the printed pids. -/
def get_process_children (pid : Nat) (tree : ProcTree) : List Nat :=
  (tree.filter (fun e => e.2 = pid)).map (fun e => e.1)

/-- Embeds the pid set assembled in `run`'s `except Alarm` branch:
`pids = [p.pid]`, extended with `get_process_children(p.pid)` when
`kill_tree` is set, evaluated on the process-table snapshot taken at the
moment the alarm fired. -/
def killPids (childPid : Nat) (kill_tree : Bool) (tree : ProcTree) : List Nat :=
  childPid :: (if kill_tree then get_process_children childPid tree else [])

/-- Embeds `os.kill(pid, SIGKILL)`: succeeds when the target process is
alive, raises `OSError` (modelled as `Except.error`) when it already
exited. -/
def osKill (alive : Nat → Bool) (pid : Nat) : Except String Unit :=
  if alive pid then Except.ok () else Except.error "OSError: no such process"

/-- Embeds the guarded kill in `run`'s loop body: `try: kill(pid, SIGKILL)
except OSError: pass` — the no-such-process error is swallowed. -/
def tryKill (alive : Nat → Bool) (pid : Nat) : Except String Unit :=
  match osKill alive pid with
  | Except.ok _ => Except.ok ()
  | Except.error _ => Except.ok ()

/-- Embeds `for pid in pids: try: kill(pid, SIGKILL) except OSError: pass`.
An uncaught exception in an iteration would abort the loop and propagate
(`Except.error`); `tryKill` never produces one. -/
def killLoop (alive : Nat → Bool) : List Nat → Except String Unit
  | [] => Except.ok ()
  | pid :: rest =>
    match tryKill alive pid with
    | Except.ok _ => killLoop alive rest
    | Except.error e => Except.error e

/-- Embeds the arming condition of `run`: `if timeout != -1:
signal(SIGALRM, alarm_handler); alarm(timeout)`. -/
def armsAlarm (timeout : Int) : Bool := timeout ≠ -1

/-- Embeds the cancellation condition on the normal path of `run`:
after `communicate()` returns, `if timeout != -1: alarm(0)`. -/
def cancelsAlarmOnExit (timeout : Int) : Bool := timeout ≠ -1

/-- How the blocking `p.communicate()` call in `run` ends: either the
child exits first (with its return code and drained output), or the armed
alarm fires while it is still running; the `alarmFired` case carries the
process-table snapshot observed by `ps` at that moment. -/
inductive ChildOutcome where
  | exited (returncode : Int) (stdout stderr : String)
  | alarmFired (tree : ProcTree)

/-- An `Alarm` can only interrupt `communicate()` when the alarm was armed,
i.e. when `timeout != -1`. -/
def possibleOutcome (timeout : Int) : ChildOutcome → Prop
  | ChildOutcome.exited _ _ _ => True
  | ChildOutcome.alarmFired _ => armsAlarm timeout = true

/-- Embeds `run(args, cwd, shell, kill_tree, timeout, env)` from
`bash_plugin.py`, abstracting over the child pid, the liveness of pids at
kill time, and how `communicate()` ends.  On the normal path it returns
`(p.returncode, stdout, stderr)`; on the `Alarm` path it kills
`killPids` and returns the sentinel `(-9, '', '')`.  An exception escaping
the kill loop would propagate out of `run` (`Except.error`). -/
def run (timeout : Int) (kill_tree : Bool) (childPid : Nat) (alive : Nat → Bool)
    (outcome : ChildOutcome) : Except String (Int × String × String) :=
  match outcome with
  | ChildOutcome.exited rc out err => Except.ok (rc, out, err)
  | ChildOutcome.alarmFired tree =>
    match killLoop alive (killPids childPid kill_tree tree) with
    | Except.ok _ => Except.ok (-9, "", "")
    | Except.error e => Except.error e

/-- Outcome of `main` for one job, as observed by the coordinator:
either a success log or a raised failure with its reason string. -/
inductive JobResult where
  | success
  | raised (reason : String)
deriving DecidableEq

/-- Embeds the classification at the end of `main`:
`if returncode == -9: log_and_raise("Bash job timed out")
elif returncode != 0: log_and_raise("Bash job failed")
else: log.info("Bash job succeeded")`. -/
def classifyExit (returncode : Int) : JobResult :=
  if returncode = -9 then JobResult.raised "Bash job timed out"
  else if returncode ≠ 0 then JobResult.raised "Bash job failed"
  else JobResult.success

/-- Embeds the command assembly of `main`:
`cmd = dag_tools.get_bash_opts(ns.app_name); if ns.bash: cmd += ' '.join(ns.bash);
if not cmd: raise UserWarning(...)`.  `defaultOpts` stands for the app's
configured default bash options (computed by the out-of-scope graph
layer); `bash` is the `--bash` remainder argument (absent = `[]`). -/
def mainCommand (defaultOpts : String) (bash : List String) : Except String String :=
  let cmd := if bash.isEmpty then defaultOpts
             else defaultOpts ++ String.intercalate " " bash
  if cmd = "" then
    Except.error
      "You need to specify bash options or configure default bash options"
  else Except.ok cmd

end BashPlugin

namespace TestingTools

/-- A value stored in the dict returned by `get_zk_status`. -/
inductive ZkVal where
  | nat (n : Nat)
  | bool (b : Bool)
  | str (s : String)
deriving DecidableEq

/-- The zookeeper client as seen by `get_zk_status`: `exists` is total;
`get` and `get_children` return `none` where the real client raises
`NoNodeError` (node absent). `zkGet` returns the node's payload. -/
structure ZkClient where
  zkExists : String → Bool
  zkGet : String → Option String
  zkChildren : String → Option (List String)

/-- Embeds `os.path.join(a, b)` for the relative paths used here. -/
def join (a b : String) : String := a ++ "/" ++ b

/-- Modelled from the spec: `zookeeper_tools._get_zookeeper_path(app_name,
job_id)` is not in the sources; per the path layout of the spec the job's
status node is `A/<job_id>`. -/
def get_zookeeper_path (app_name job_id : String) : String := join app_name job_id

/-- Embeds `len(zk.exists(p) and zk.get_children(p) or [])`: when the
node does not exist the boolean short-circuit yields `[]` (count 0)
without calling `get_children`; when it exists, `get_children` is called
(raising if the node vanished). -/
def lockCount (zk : ZkClient) (p : String) : Option Nat :=
  if zk.zkExists p then (zk.zkChildren p).map List.length else some 0

/-- Embeds the generator inside `any(...)` of the `in_queue` field:
walks the entry names in order, reads each entry's payload with
`zk.get(join(app_name, 'entries', x))[0]`, stops at the first payload
equal to `job_id`.  A failing `get` propagates (`none`). -/
def inQueueScan (zk : ZkClient) (entriespath job_id : String) :
    List String → Option Bool
  | [] => some false
  | x :: xs =>
    match zk.zkGet (join entriespath x) with
    | none => none
    | some payload =>
      if payload = job_id then some true else inQueueScan zk entriespath job_id xs

/-- The record returned by `get_zk_status`, with the field names used by
the source dict literal. -/
structure ZkStatus where
  num_add_locks : Nat
  num_execute_locks : Nat
  in_queue : Bool
  app_qsize : Nat
  state : String
deriving DecidableEq

/-- The dict literal of `get_zk_status`, as key/value pairs in source
order. -/
def ZkStatus.toDict (s : ZkStatus) : List (String × ZkVal) :=
  [("num_add_locks", ZkVal.nat s.num_add_locks),
   ("num_execute_locks", ZkVal.nat s.num_execute_locks),
   ("in_queue", ZkVal.bool s.in_queue),
   ("app_qsize", ZkVal.nat s.app_qsize),
   ("state", ZkVal.str s.state)]

/-- Embeds the `in_queue` value of the dict:
`any(zk.get(join(app_name, 'entries', x))[0] == job_id
     for x in zk.get_children(entriespath)) if zk.exists(entriespath)
 else False`. -/
def inQueueField (zk : ZkClient) (app_name job_id : String) : Option Bool :=
  let entriespath := join app_name "entries"
  if zk.zkExists entriespath then
    match zk.zkChildren entriespath with
    | none => none
    | some cs => inQueueScan zk entriespath job_id cs
  else some false

/-- Embeds the `app_qsize` value of the dict:
`len(zk.get_children(entriespath)) if zk.exists(entriespath) else 0`. -/
def qsizeField (zk : ZkClient) (app_name : String) : Option Nat :=
  let entriespath := join app_name "entries"
  if zk.zkExists entriespath then (zk.zkChildren entriespath).map List.length
  else some 0

/-- Embeds `get_zk_status(zk, app_name, job_id)` from `testing_tools.py`:
the dict with values `lockCount` of the two lock directories,
`inQueueField`, `qsizeField`, and the payload `zk.get(path)[0]` of the
job's status node.  `none` models an uncaught `NoNodeError` raised while
computing any of the values. -/
def get_zk_status (zk : ZkClient) (app_name job_id : String) : Option ZkStatus :=
  let path := get_zookeeper_path app_name job_id
  let elockpath := join path "execute_lock"
  let alockpath := join path "add_lock"
  match lockCount zk alockpath, lockCount zk elockpath,
      inQueueField zk app_name job_id, qsizeField zk app_name, zk.zkGet path with
  | some numAdd, some numExec, some inq, some qsz, some st =>
    some { num_add_locks := numAdd, num_execute_locks := numExec,
           in_queue := inq, app_qsize := qsz, state := st }
  | _, _, _, _, _ => none

/-- Embeds `validate_one_failed_task(zk, app_name, job_id)`: the
assertions it makes on the status view (the `app_qsize` assertion is
commented out in the source). -/
def validate_one_failed_task (s : ZkStatus) : Prop :=
  s.num_execute_locks = 0 ∧ s.num_add_locks = 0 ∧ s.in_queue = false ∧
    s.state = "failed"

instance (s : ZkStatus) : Decidable (validate_one_failed_task s) := by
  unfold validate_one_failed_task; infer_instance

end TestingTools

namespace CoordModel

/-- Job lifecycle states of the job state store. -/
inductive JobStatus where
  | pending
  | completed
  | failed
  | skipped
deriving DecidableEq

/-- `completed`, `failed` and `skipped` are terminal. -/
def JobStatus.terminal : JobStatus → Bool
  | JobStatus.pending => false
  | _ => true

/-- The coordination-service state for one app: queue-entry payloads in
sequence order, the persisted status per job id, and the marker counts of
the per-job `add_lock` / `execute_lock` directories. -/
structure CoordState where
  entries : List String
  status : String → Option JobStatus
  addLocks : String → Nat
  execLocks : String → Nat

/-- `in_queue`: some entry's payload equals the job id. -/
def CoordState.inQueue (s : CoordState) (job_id : String) : Bool :=
  decide (job_id ∈ s.entries)

/-- `queue_size` / `app_qsize`: number of entries in the app's queue. -/
def CoordState.queueSize (s : CoordState) : Nat := s.entries.length

/-- The job already has a terminal status recorded. -/
def CoordState.hasTerminal (s : CoordState) (job_id : String) : Bool :=
  match s.status job_id with
  | some t => t.terminal
  | none => false

/-- Modelled from the spec: acquiring the `add_lock` scoped to `job_id`
creates one marker under its lock directory. -/
def acquireAddLock (job_id : String) (s : CoordState) : CoordState :=
  { s with addLocks := fun k => if k = job_id then s.addLocks k + 1 else s.addLocks k }

/-- Modelled from the spec: releasing the `add_lock` deletes the caller's
marker. -/
def releaseAddLock (job_id : String) (s : CoordState) : CoordState :=
  { s with addLocks := fun k => if k = job_id then s.addLocks k - 1 else s.addLocks k }

/-- Modelled from the spec: the body of `enqueue(job_id)` between lock
acquire and release — if a live entry for `job_id` exists or the job has
a terminal status, no-op; otherwise create the entry and set status to
`pending`.  (`api.maybe_add_subtask`, called by the `enqueue` helper of
`testing_tools.py`, is not in the sources.) -/
def enqueueBody (job_id : String) (s : CoordState) : CoordState :=
  if s.inQueue job_id || s.hasTerminal job_id then s
  else
    { s with entries := s.entries ++ [job_id],
             status := fun k => if k = job_id then some JobStatus.pending
                                else s.status k }

/-- Modelled from the spec: `enqueue(job_id)` = acquire `add_lock`, run
the guarded body, release `add_lock` on every exit path. -/
def maybe_add_subtask (job_id : String) (s : CoordState) : CoordState :=
  releaseAddLock job_id (enqueueBody job_id (acquireAddLock job_id s))

/-- Modelled from the spec: `mark_failed(app, job_id, reason)` writes
status `failed` and releases any `execute_lock`; the spec leaves the
queue entry's fate to caller policy, so the entry list is untouched by
the state store itself. -/
def mark_failed (job_id : String) (s : CoordState) : CoordState :=
  { s with status := fun k => if k = job_id then some JobStatus.failed
                              else s.status k,
           execLocks := fun k => if k = job_id then 0 else s.execLocks k }

end CoordModel

/-- Embeds the `--watch` flag's `default=-1` from `build_arg_parser`. -/
def watchDefault : Int := -1

open BashPlugin TestingTools CoordModel

section Helpers

lemma tryKill_ok (alive : Nat → Bool) (pid : Nat) :
    tryKill alive pid = Except.ok () := by
  unfold tryKill osKill
  by_cases h : alive pid <;> simp [h]

lemma killLoop_ok (alive : Nat → Bool) (pids : List Nat) :
    killLoop alive pids = Except.ok () := by
  induction pids with
  | nil => rfl
  | cons pid rest ih => simp [killLoop, tryKill_ok, ih]

lemma string_append_eq_empty {a b : String} (h : a ++ b = "") :
    a = "" ∧ b = "" := by
  have h2 := congrArg String.data h
  simp only [String.data_append] at h2
  have h3 := List.append_eq_nil.mp h2
  exact ⟨String.ext (by simp [h3.1]), String.ext (by simp [h3.2])⟩

end Helpers

/-- C1 (counterexample): the claim that `run` kills *every* process
descended from the child is false: in the snapshot `[(2,1),(3,2)]`, pid 3
is a descendant of the child pid 1 (a grandchild), yet the kill set that
`run` assembles with `kill_tree` on is `[1, 2]`. -/
theorem C1_full_tree_counterexample :
    descendantOf [(2, 1), (3, 2)] 3 1 ∧ 3 ∉ killPids 1 true [(2, 1), (3, 2)] := by
  constructor
  · have h32 : childOf [(2, 1), (3, 2)] 3 2 := by decide
    have h21 : childOf [(2, 1), (3, 2)] 2 1 := by decide
    exact Relation.TransGen.head h32 (Relation.TransGen.single h21)
  · decide

/-- C1 (amended): at deadline expiry, the kill set `run` assembles
contains exactly the direct child process and — when `kill_tree` is set —
the processes whose parent is that child in the snapshot taken at that
moment; deeper descendants (grandchildren and beyond) are not enumerated. -/
theorem C1_kill_set_direct_children :
    ∀ (tree : ProcTree) (p q : Nat) (kt : Bool),
      q ∈ killPids p kt tree ↔ (q = p ∨ (kt = true ∧ childOf tree q p)) := by
  intro tree p q kt
  cases kt with
  | false => simp [killPids]
  | true =>
    simp only [killPids, if_true, List.mem_cons, get_process_children,
      List.mem_map, List.mem_filter, childOf, true_and, decide_eq_true_eq]
    constructor
    · rintro (h | ⟨e, ⟨hmem, hpp⟩, hc⟩)
      · exact Or.inl h
      · refine Or.inr ?_
        have he : e = (q, p) := Prod.ext hc hpp
        rwa [he] at hmem
    · rintro (h | h)
      · exact Or.inl h
      · exact Or.inr ⟨(q, p), ⟨h, rfl⟩, rfl⟩

/-- C2: whenever the armed deadline expires while the child is still
running (the `Alarm` interrupts `communicate()`), `run` returns the
sentinel triple `(-9, '', '')` — empty captured stdout and stderr —
regardless of which processes are still alive at kill time. -/
theorem C2_timeout_sentinel (timeout : Int) (kill_tree : Bool) (childPid : Nat)
    (alive : Nat → Bool) (tree : ProcTree)
    (harmed : possibleOutcome timeout (ChildOutcome.alarmFired tree)) :
    run timeout kill_tree childPid alive (ChildOutcome.alarmFired tree) =
      Except.ok (-9, "", "") := by
  simp [run, killLoop_ok]

/-- C2 witness at a concrete armed timeout. -/
theorem C2_timeout_sentinel_witness :
    run 5 true 100 (fun _ => true) (ChildOutcome.alarmFired [(101, 100)]) =
      Except.ok (-9, "", "") :=
  C2_timeout_sentinel 5 true 100 (fun _ => true) [(101, 100)]
    (show armsAlarm 5 = true by decide)

/-- C3: `main` classifies the returned exit code exactly as: 0 → success;
-9 → raised "Bash job timed out"; any other non-zero → raised
"Bash job failed"; and the two failure reasons are distinct strings. -/
theorem C3_exit_classification :
    classifyExit 0 = JobResult.success ∧
    classifyExit (-9) = JobResult.raised "Bash job timed out" ∧
    (∀ rc : Int, rc ≠ -9 → rc ≠ 0 →
      classifyExit rc = JobResult.raised "Bash job failed") ∧
    JobResult.raised "Bash job timed out" ≠ JobResult.raised "Bash job failed" := by
  refine ⟨by decide, by decide, ?_, by decide⟩
  intro rc h9 h0
  simp [classifyExit, h9, h0]

/-- C3 witness: a generic non-zero, non-sentinel exit code. -/
theorem C3_exit_classification_witness :
    classifyExit 7 = JobResult.raised "Bash job failed" :=
  C3_exit_classification.2.2.1 7 (by decide) (by decide)

/-- C5: killing a pid whose process has already exited raises `OSError`,
which the loop body swallows (`Except.ok`); even when every pid in the
kill set is already dead, `run` still returns the `-9` sentinel normally
and no exception propagates. -/
theorem C5_dead_pid_swallowed :
    (∀ (alive : Nat → Bool) (pid : Nat), alive pid = false →
      osKill alive pid = Except.error "OSError: no such process" ∧
        tryKill alive pid = Except.ok ()) ∧
    (∀ (timeout : Int) (kill_tree : Bool) (childPid : Nat) (tree : ProcTree),
      armsAlarm timeout = true →
        run timeout kill_tree childPid (fun _ => false)
            (ChildOutcome.alarmFired tree) = Except.ok (-9, "", "")) := by
  constructor
  · intro alive pid h
    constructor
    · simp [osKill, h]
    · exact tryKill_ok alive pid
  · intro timeout kill_tree childPid tree _
    simp [run, killLoop_ok]

/-- C5 witness: all pids dead, concrete inputs. -/
theorem C5_dead_pid_swallowed_witness :
    osKill (fun _ => false) 42 = Except.error "OSError: no such process" ∧
      run 3 true 42 (fun _ => false) (ChildOutcome.alarmFired [(43, 42)]) =
        Except.ok (-9, "", "") :=
  ⟨(C5_dead_pid_swallowed.1 (fun _ => false) 42 rfl).1,
   C5_dead_pid_swallowed.2 3 true 42 [(43, 42)] (by decide)⟩

/-- C6: `main` raises the configuration error exactly when both the app's
configured default bash options and the joined `--bash` arguments are
empty; if either source yields a non-empty string, the assembled command
is non-empty and no error is raised. -/
theorem C6_config_error_iff :
    ∀ (defaultOpts : String) (bash : List String),
      ((∃ e, mainCommand defaultOpts bash = Except.error e) ↔
        (defaultOpts = "" ∧ String.intercalate " " bash = "")) ∧
      (defaultOpts = "" ∧ bash = [] →
        ∃ e, mainCommand defaultOpts bash = Except.error e) := by
  intro d bash
  have key : (∃ e, mainCommand d bash = Except.error e) ↔
      (d = "" ∧ String.intercalate " " bash = "") := by
    cases hb : bash.isEmpty with
    | true =>
      have hnil : bash = [] := by
        cases bash with
        | nil => rfl
        | cons x xs => simp at hb
      subst hnil
      by_cases hd : d = "" <;>
        simp [mainCommand, hd, String.intercalate]
    | false =>
      by_cases hc : d ++ String.intercalate " " bash = ""
      · rcases string_append_eq_empty hc with ⟨h1, h2⟩
        simp [mainCommand, hb, hc, h1, h2]
      · simp [mainCommand, hb, hc]
        intro h1 h2
        exact absurd (by rw [h1, h2]; rfl) hc
  exact ⟨key, fun ⟨h1, h2⟩ => key.mpr ⟨h1, by rw [h2]; rfl⟩⟩

/-- C4 (counterexample): the claim that the deadline is armed iff the
timeout is non-negative is false: `run`'s guard is `timeout != -1`, so
the negative value `-2` arms the alarm. -/
theorem C4_nonnegative_counterexample :
    armsAlarm (-2) = true ∧ ¬((0 : Int) ≤ -2) := by decide

/-- C4 (amended): `run` arms its kill deadline iff the timeout argument
differs from `-1` (so every non-negative timeout arms it, but so does any
negative value other than `-1`); with the disabled value `-1` — the
default of the `--watch` flag — no alarm can fire and `run` returns the
child's own return code and captured output; an armed alarm is cancelled
on the normal exit path. -/
theorem C4_arms_iff_not_neg_one :
    (∀ t : Int, armsAlarm t = true ↔ t ≠ -1) ∧
    armsAlarm watchDefault = false ∧
    (∀ t : Int, 0 ≤ t → armsAlarm t = true) ∧
    (∀ tree : ProcTree, ¬ possibleOutcome (-1) (ChildOutcome.alarmFired tree)) ∧
    (∀ (kill_tree : Bool) (childPid : Nat) (alive : Nat → Bool)
        (rc : Int) (out err : String),
      run (-1) kill_tree childPid alive (ChildOutcome.exited rc out err) =
        Except.ok (rc, out, err)) ∧
    (∀ t : Int, cancelsAlarmOnExit t = armsAlarm t) := by
  refine ⟨?_, by decide, ?_, ?_, ?_, fun t => rfl⟩
  · intro t; simp [armsAlarm]
  · intro t ht
    simp only [armsAlarm, ne_eq, decide_not, Bool.not_eq_true', decide_eq_false_iff_not,
      Decidable.not_not]
    omega
  · intro tree h
    have : armsAlarm (-1) = true := h
    exact absurd this (by decide)
  · intro kill_tree childPid alive rc out err
    rfl

/-- C4 witness: a concrete non-negative timeout arms the alarm. -/
theorem C4_arms_iff_not_neg_one_witness : armsAlarm 10 = true :=
  C4_arms_iff_not_neg_one.2.2.1 10 (by decide)

/-- C6 witness: no defaults and no arguments raises; a configured default
alone does not. -/
theorem C6_config_error_iff_witness :
    (∃ e, mainCommand "" [] = Except.error e) ∧
      ¬(∃ e, mainCommand "script.sh" [] = Except.error e) :=
  ⟨(C6_config_error_iff "" []).2 ⟨rfl, rfl⟩,
   fun h => by
     have := (C6_config_error_iff "script.sh" []).1.mp h
     exact absurd this.1 (by decide)⟩

section StatusViewHelpers

lemma inQueueScan_spec (zk : ZkClient) (ep j : String) :
    ∀ (cs : List String) (b : Bool), inQueueScan zk ep j cs = some b →
      (b = true ↔ ∃ x ∈ cs, zk.zkGet (join ep x) = some j) := by
  intro cs
  induction cs with
  | nil =>
    intro b hb
    simp only [inQueueScan, Option.some_inj] at hb
    subst hb
    simp
  | cons x xs ih =>
    intro b hb
    simp only [inQueueScan] at hb
    cases hg : zk.zkGet (join ep x) with
    | none => rw [hg] at hb; exact absurd hb (by simp)
    | some payload =>
      rw [hg] at hb
      by_cases hp : payload = j
      · simp only [hp, if_true, Option.some_inj] at hb
        subst hb
        simp only [true_iff]
        exact ⟨x, List.mem_cons_self x xs, by rw [hg, hp]⟩
      · simp only [hp, if_false] at hb
        rw [ih b hb]
        constructor
        · rintro ⟨y, hy, hgy⟩
          exact ⟨y, List.mem_cons_of_mem x hy, hgy⟩
        · rintro ⟨y, hy, hgy⟩
          rcases List.mem_cons.mp hy with hyx | hyxs
          · subst hyx
            rw [hg] at hgy
            exact absurd (Option.some_inj.mp hgy) hp
          · exact ⟨y, hyxs, hgy⟩

lemma get_zk_status_some {zk : ZkClient} {app job : String} {s : ZkStatus}
    (h : get_zk_status zk app job = some s) :
    lockCount zk (join (get_zookeeper_path app job) "add_lock") =
        some s.num_add_locks ∧
    lockCount zk (join (get_zookeeper_path app job) "execute_lock") =
        some s.num_execute_locks ∧
    inQueueField zk app job = some s.in_queue ∧
    qsizeField zk app = some s.app_qsize ∧
    zk.zkGet (get_zookeeper_path app job) = some s.state := by
  simp only [get_zk_status] at h
  cases ha : lockCount zk (join (get_zookeeper_path app job) "add_lock") with
  | none => rw [ha] at h; exact absurd h (by simp)
  | some numAdd =>
    cases he : lockCount zk (join (get_zookeeper_path app job) "execute_lock") with
    | none => rw [ha, he] at h; exact absurd h (by simp)
    | some numExec =>
      cases hq : inQueueField zk app job with
      | none => rw [ha, he, hq] at h; exact absurd h (by simp)
      | some inq =>
        cases hz : qsizeField zk app with
        | none => rw [ha, he, hq, hz] at h; exact absurd h (by simp)
        | some qsz =>
          cases hg : zk.zkGet (get_zookeeper_path app job) with
          | none => rw [ha, he, hq, hz, hg] at h; exact absurd h (by simp)
          | some st =>
            rw [ha, he, hq, hz, hg] at h
            have h2 := Option.some_inj.mp h
            subst h2
            exact ⟨rfl, rfl, rfl, rfl, rfl⟩

/-- A concrete coordination-service state: app `appA` has one queue entry
`e0` with payload `j1`, empty lock directories for job `j1`, and status
payload `pending` at `appA/j1`. -/
def exampleZk : ZkClient where
  zkExists := fun p =>
    p = "appA/entries" || p = "appA/j1/add_lock" ||
      p = "appA/j1/execute_lock" || p = "appA/j1"
  zkGet := fun p =>
    if p = "appA/j1" then some "pending"
    else if p = "appA/entries/e0" then some "j1"
    else none
  zkChildren := fun p =>
    if p = "appA/entries" then some ["e0"]
    else if p = "appA/j1/add_lock" then some []
    else if p = "appA/j1/execute_lock" then some []
    else none

end StatusViewHelpers

/-- C7 (counterexample): the status view's dict does not contain a field
named `queue_size`: on a concrete store the returned keys are
`num_add_locks, num_execute_locks, in_queue, app_qsize, state` — the
queue length is published under the name `app_qsize`. -/
theorem C7_queue_size_name_counterexample :
    (get_zk_status exampleZk "appA" "j1").map (fun s => s.toDict.map Prod.fst) =
      some ["num_add_locks", "num_execute_locks", "in_queue", "app_qsize",
            "state"] ∧
    "queue_size" ∉ ["num_add_locks", "num_execute_locks", "in_queue",
                    "app_qsize", "state"] := by
  constructor
  · rfl
  · decide

/-- C7 (amended): the status view returns exactly the five fields
`state, in_queue, num_execute_locks, num_add_locks, app_qsize` (the
queue-length field is named `app_qsize`, not `queue_size`), where `state`
is the payload of the job's status node, `in_queue` is true iff some
entry under the app's entries directory has payload equal to the job id,
`app_qsize` is the number of entries, and the lock counts are the numbers
of markers under the job's `add_lock` / `execute_lock` directories. -/
theorem C7_status_view_fields :
    ∀ (zk : ZkClient) (app job : String) (s : ZkStatus) (cs : List String),
      get_zk_status zk app job = some s →
      zk.zkExists (join app "entries") = true →
      zk.zkChildren (join app "entries") = some cs →
      s.toDict.map Prod.fst =
        ["num_add_locks", "num_execute_locks", "in_queue", "app_qsize",
         "state"] ∧
      zk.zkGet (get_zookeeper_path app job) = some s.state ∧
      s.app_qsize = cs.length ∧
      (s.in_queue = true ↔
        ∃ x ∈ cs, zk.zkGet (join (join app "entries") x) = some job) ∧
      (∀ ls, zk.zkExists (join (get_zookeeper_path app job) "add_lock") = true →
        zk.zkChildren (join (get_zookeeper_path app job) "add_lock") = some ls →
        s.num_add_locks = ls.length) ∧
      (∀ ls, zk.zkExists (join (get_zookeeper_path app job) "execute_lock") = true →
        zk.zkChildren (join (get_zookeeper_path app job) "execute_lock") = some ls →
        s.num_execute_locks = ls.length) := by
  intro zk app job s cs hs hex hcs
  obtain ⟨ha, he, hq, hz, hg⟩ := get_zk_status_some hs
  refine ⟨rfl, hg, ?_, ?_, ?_, ?_⟩
  · have : qsizeField zk app = some cs.length := by
      simp [qsizeField, hex, hcs]
    rw [this] at hz
    exact (Option.some_inj.mp hz).symm
  · have : inQueueScan zk (join app "entries") job cs = some s.in_queue := by
      simp only [inQueueField, hex, if_true, hcs] at hq
      exact hq
    exact inQueueScan_spec zk (join app "entries") job cs s.in_queue this
  · intro ls hl hcl
    simp [lockCount, hl, hcl] at ha
    exact ha.symm
  · intro ls hl hcl
    simp [lockCount, hl, hcl] at he
    exact he.symm

/-- C7 witness: the concrete store, where the job is queued once with
empty lock directories. -/
theorem C7_status_view_fields_witness :
    (∃ s, get_zk_status exampleZk "appA" "j1" = some s ∧
      s.app_qsize = 1 ∧ s.in_queue = true ∧ s.state = "pending") := by
  have happ : get_zk_status exampleZk "appA" "j1" =
      some ⟨0, 0, true, 1, "pending"⟩ := by rfl
  obtain ⟨hkeys, hst, hqs, hin, _⟩ :=
    C7_status_view_fields exampleZk "appA" "j1" ⟨0, 0, true, 1, "pending"⟩
      ["e0"] happ rfl rfl
  exact ⟨⟨0, 0, true, 1, "pending"⟩, happ, hqs.symm ▸ rfl, rfl, rfl⟩

/-- C10: the status view is total over missing coordination nodes — a
missing entries directory yields `in_queue = false` and `app_qsize = 0`
rather than an error, a missing `add_lock` or `execute_lock` directory
yields a lock count of 0, and with all three directories missing (and the
status node present) `get_zk_status` still returns a full record instead
of raising. -/
theorem C10_total_on_missing_nodes :
    ∀ (zk : ZkClient) (app job : String),
      (∀ s, get_zk_status zk app job = some s →
        zk.zkExists (join app "entries") = false →
        s.in_queue = false ∧ s.app_qsize = 0) ∧
      (∀ s, get_zk_status zk app job = some s →
        zk.zkExists (join (get_zookeeper_path app job) "add_lock") = false →
        s.num_add_locks = 0) ∧
      (∀ s, get_zk_status zk app job = some s →
        zk.zkExists (join (get_zookeeper_path app job) "execute_lock") = false →
        s.num_execute_locks = 0) ∧
      (∀ st, zk.zkExists (join app "entries") = false →
        zk.zkExists (join (get_zookeeper_path app job) "add_lock") = false →
        zk.zkExists (join (get_zookeeper_path app job) "execute_lock") = false →
        zk.zkGet (get_zookeeper_path app job) = some st →
        get_zk_status zk app job = some ⟨0, 0, false, 0, st⟩) := by
  intro zk app job
  refine ⟨?_, ?_, ?_, ?_⟩
  · intro s hs hmiss
    obtain ⟨_, _, hq, hz, _⟩ := get_zk_status_some hs
    constructor
    · simp [inQueueField, hmiss] at hq
      exact hq
    · simp [qsizeField, hmiss] at hz
      omega
  · intro s hs hmiss
    obtain ⟨ha, _, _, _, _⟩ := get_zk_status_some hs
    simp [lockCount, hmiss] at ha
    omega
  · intro s hs hmiss
    obtain ⟨_, he, _, _, _⟩ := get_zk_status_some hs
    simp [lockCount, hmiss] at he
    omega
  · intro st h1 h2 h3 h4
    simp [get_zk_status, lockCount, inQueueField, qsizeField, h1, h2, h3, h4]

/-- C10 witness: a store holding only the status node. -/
theorem C10_total_on_missing_nodes_witness :
    get_zk_status
        { zkExists := fun p => p = "appB/j2",
          zkGet := fun p => if p = "appB/j2" then some "pending" else none,
          zkChildren := fun _ => none }
        "appB" "j2" = some ⟨0, 0, false, 0, "pending"⟩ :=
  (C10_total_on_missing_nodes
      { zkExists := fun p => p = "appB/j2",
        zkGet := fun p => if p = "appB/j2" then some "pending" else none,
        zkChildren := fun _ => none }
      "appB" "j2").2.2.2 "pending" (by decide) (by decide) (by decide) (by decide)

section CoordHelpers

lemma maybe_add_subtask_eq (J : String) (s : CoordState) :
    maybe_add_subtask J s =
      if s.inQueue J || s.hasTerminal J then s
      else { s with entries := s.entries ++ [J],
                    status := fun k => if k = J then some JobStatus.pending
                                       else s.status k } := by
  cases s with
  | mk entries status addLocks execLocks =>
    unfold maybe_add_subtask releaseAddLock acquireAddLock enqueueBody
    by_cases h : CoordState.inQueue ⟨entries, status, addLocks, execLocks⟩ J ||
        CoordState.hasTerminal ⟨entries, status, addLocks, execLocks⟩ J
    · simp only [CoordState.inQueue, CoordState.hasTerminal] at h ⊢
      simp only [h, if_true]
      congr 1
      funext k
      by_cases hk : k = J <;> simp [hk]
    · simp only [CoordState.inQueue, CoordState.hasTerminal] at h ⊢
      simp only [h, if_false]
      congr 1
      funext k
      by_cases hk : k = J <;> simp [hk]

end CoordHelpers

/-- C8: enqueue is idempotent — a second `maybe_add_subtask` for the same
job is a no-op on the whole coordination state; and starting from a state
with an empty queue, no terminal status for the job and no lock markers,
a double enqueue leaves exactly one queue entry whose payload is the job
id, status `pending`, and zero `add_lock` / `execute_lock` markers. -/
theorem C8_enqueue_idempotent :
    ∀ (s : CoordState) (J : String),
      maybe_add_subtask J (maybe_add_subtask J s) = maybe_add_subtask J s ∧
      (s.entries = [] → s.hasTerminal J = false → s.addLocks J = 0 →
        s.execLocks J = 0 →
        (maybe_add_subtask J (maybe_add_subtask J s)).queueSize = 1 ∧
        (maybe_add_subtask J (maybe_add_subtask J s)).inQueue J = true ∧
        (maybe_add_subtask J (maybe_add_subtask J s)).status J =
          some JobStatus.pending ∧
        (maybe_add_subtask J (maybe_add_subtask J s)).addLocks J = 0 ∧
        (maybe_add_subtask J (maybe_add_subtask J s)).execLocks J = 0) := by
  intro s J
  have hidem : maybe_add_subtask J (maybe_add_subtask J s) = maybe_add_subtask J s := by
    rw [maybe_add_subtask_eq J s]
    by_cases h : s.inQueue J || s.hasTerminal J
    · rw [if_pos h, maybe_add_subtask_eq J s, if_pos h]
    · rw [if_neg h]
      rw [maybe_add_subtask_eq]
      rw [if_pos]
      simp [CoordState.inQueue]
  refine ⟨hidem, ?_⟩
  intro hent hterm hadd hexec
  rw [hidem]
  have hcond : (s.inQueue J || s.hasTerminal J) = false := by
    simp [CoordState.inQueue, hent, hterm]
  rw [maybe_add_subtask_eq J s, hcond]
  simp [CoordState.queueSize, CoordState.inQueue, hent, hadd, hexec]

/-- C8 witness: the empty fresh state. -/
theorem C8_enqueue_idempotent_witness :
    (maybe_add_subtask "j1"
        (maybe_add_subtask "j1" ⟨[], fun _ => none, fun _ => 0, fun _ => 0⟩)).queueSize = 1 ∧
    (maybe_add_subtask "j1"
        (maybe_add_subtask "j1" ⟨[], fun _ => none, fun _ => 0, fun _ => 0⟩)).inQueue "j1" = true ∧
    (maybe_add_subtask "j1"
        (maybe_add_subtask "j1" ⟨[], fun _ => none, fun _ => 0, fun _ => 0⟩)).status "j1" =
      some JobStatus.pending ∧
    (maybe_add_subtask "j1"
        (maybe_add_subtask "j1" ⟨[], fun _ => none, fun _ => 0, fun _ => 0⟩)).addLocks "j1" = 0 ∧
    (maybe_add_subtask "j1"
        (maybe_add_subtask "j1" ⟨[], fun _ => none, fun _ => 0, fun _ => 0⟩)).execLocks "j1" = 0 :=
  (C8_enqueue_idempotent ⟨[], fun _ => none, fun _ => 0, fun _ => 0⟩ "j1").2
    rfl rfl rfl rfl

/-- C9: after `mark_failed` the job has zero `execute_lock` markers, its
`add_lock` count is unchanged (zero in steady state), status is `failed`,
and the queue-entry list is untouched by the state store itself (its fate
is caller policy); and `validate_one_failed_task` asserts exactly the two
lock counts, the `in_queue` flag and the state — it is insensitive to
`app_qsize`. -/
theorem C9_mark_failed_observables :
    (∀ (s : CoordState) (J : String), s.addLocks J = 0 →
      (mark_failed J s).execLocks J = 0 ∧
      (mark_failed J s).addLocks J = 0 ∧
      (mark_failed J s).status J = some JobStatus.failed ∧
      (mark_failed J s).entries = s.entries) ∧
    (∀ (st : ZkStatus) (q : Nat),
      validate_one_failed_task st ↔
        validate_one_failed_task { st with app_qsize := q }) := by
  constructor
  · intro s J h
    simp [mark_failed, h]
  · intro st q
    cases st
    simp [validate_one_failed_task]

/-- C9 witness: a claimed job (one execute lock) marked failed. -/
theorem C9_mark_failed_observables_witness :
    (mark_failed "j1"
        ⟨["j1"], fun _ => some JobStatus.pending, fun _ => 0, fun _ => 1⟩).execLocks "j1" = 0 ∧
    (mark_failed "j1"
        ⟨["j1"], fun _ => some JobStatus.pending, fun _ => 0, fun _ => 1⟩).addLocks "j1" = 0 ∧
    (mark_failed "j1"
        ⟨["j1"], fun _ => some JobStatus.pending, fun _ => 0, fun _ => 1⟩).status "j1" =
      some JobStatus.failed ∧
    (mark_failed "j1"
        ⟨["j1"], fun _ => some JobStatus.pending, fun _ => 0, fun _ => 1⟩).entries = ["j1"] :=
  C9_mark_failed_observables.1
    ⟨["j1"], fun _ => some JobStatus.pending, fun _ => 0, fun _ => 1⟩ "j1" rfl
